import Mathlib

/-!
Verification development for the employee daily-report tracker
(Express + Drizzle/PostgreSQL backend, `server/storage.ts`,
`server/routes.ts`, `shared/schema.ts`).

Shallow embedding conventions:
* Each database table is a `List` of rows inside a `DB` state record;
  `db.select().where(p)` with destructuring `[row] = ...` becomes
  `(table.filter p).head?`; `insert` appends; `update` maps the setter
  over matching rows; `delete` filters rows out.
* Calendar dates (the `date` column, compared after
  `toISOString().split('T')[0]`) and timestamps are modelled as `Nat`;
  the ISO-string order used by the SQL comparisons is order-isomorphic
  to `Nat` order.
* Surrogate uuid keys are modelled by a `nextId` counter in the state;
  session tokens (generated from `Date.now()`/`Math.random()`) and
  bcrypt hashing/comparison are passed in as parameters, since they are
  external sources of randomness.
* JavaScript truthiness tests on strings/numbers (`if (x)`) are embedded
  as explicit `≠ ""` / `≠ 0` tests, mirroring the source exactly.
-/

namespace EmployeeTracker

/-- Row of the `employees` table (shared/schema.ts). -/
structure Employee where
  id : Nat
  employeeId : String
  employeeName : String
  passwordHash : String
  createdAt : Nat
  updatedAt : Nat
deriving Repr, DecidableEq

/-- Row of the `daily_reports` table (shared/schema.ts). -/
structure DailyReport where
  id : Nat
  employeeId : String
  employeeName : String
  numberOfDials : Nat
  connectedCalls : Nat
  positiveProspect : Nat
  deadCalls : Nat
  demos : Nat
  admission : Nat
  clientVisit : Nat
  clientClosing : Nat
  backdoorCalls : Nat
  postersDone : Nat
  submissionDate : Nat
  createdAt : Nat
deriving Repr, DecidableEq

/-- Row of the `admins` table (shared/schema.ts). -/
structure Admin where
  id : Nat
  username : String
  passwordHash : String
  createdAt : Nat
deriving Repr, DecidableEq

/-- Principal kind stored in `sessions.user_type`. -/
inductive UserType where
  | employee
  | admin
deriving Repr, DecidableEq

/-- Row of the `sessions` table (shared/schema.ts); the token is the
primary key `id`. -/
structure Session where
  id : String
  userId : Nat
  userType : UserType
  expiresAt : Nat
  createdAt : Nat
deriving Repr, DecidableEq

/-- The whole persistent state: the four tables plus the uuid
generator. -/
structure DB where
  employees : List Employee
  dailyReports : List DailyReport
  admins : List Admin
  sessions : List Session
  nextId : Nat
deriving Repr, DecidableEq

/-- Parsed body accepted by `insertDailyReportSchema` (shared/schema.ts):
`employeeId`, `employeeName` and `submissionDate` are required fields,
the nine counters are required non-negative numbers and `postersDone`
is optional. -/
structure InsertDailyReport where
  employeeId : String
  employeeName : String
  numberOfDials : Nat
  connectedCalls : Nat
  positiveProspect : Nat
  deadCalls : Nat
  demos : Nat
  admission : Nat
  clientVisit : Nat
  clientClosing : Nat
  backdoorCalls : Nat
  postersDone : Option Nat
  submissionDate : Nat
deriving Repr, DecidableEq

/-- Embeds `Partial<InsertEmployee>`: the optional fields an admin update may
carry (storage.ts `updateEmployee`). -/
structure EmployeeUpdate where
  employeeId : Option String := none
  employeeName : Option String := none
  passwordHash : Option String := none
deriving Repr, DecidableEq

/-- Embeds `Partial<InsertDailyReport>`: the optional fields an admin update of
a report may carry (storage.ts `updateDailyReport`). -/
structure ReportUpdate where
  employeeId : Option String := none
  employeeName : Option String := none
  numberOfDials : Option Nat := none
  connectedCalls : Option Nat := none
  positiveProspect : Option Nat := none
  deadCalls : Option Nat := none
  demos : Option Nat := none
  admission : Option Nat := none
  clientVisit : Option Nat := none
  clientClosing : Option Nat := none
  backdoorCalls : Option Nat := none
  postersDone : Option Nat := none
  submissionDate : Option Nat := none
deriving Repr, DecidableEq

/-! ### storage.ts: employee operations -/

/-- Embeds `DatabaseStorage.getEmployee`: select by surrogate `id`,
destructure the first row. -/
def getEmployee (db : DB) (id : Nat) : Option Employee :=
  (db.employees.filter (fun e => e.id == id)).head?

/-- Embeds `DatabaseStorage.getEmployeeByEmployeeId`: select by the unique
human-readable `employeeId`. -/
def getEmployeeByEmployeeId (db : DB) (employeeId : String) : Option Employee :=
  (db.employees.filter (fun e => e.employeeId == employeeId)).head?

/-- Row transformation of `DatabaseStorage.updateEmployee`: spread the
supplied partial fields over the row, but re-hash the password only when
the supplied value is truthy (`if (updateData.passwordHash)`), and stamp
`updatedAt`. `bhash` stands for `bcrypt.hash` with its fresh salt at
this call. -/
def applyEmployeeUpdate (bhash : String → String) (now : Nat)
    (u : EmployeeUpdate) (e : Employee) : Employee :=
  { e with
    employeeId := u.employeeId.getD e.employeeId
    employeeName := u.employeeName.getD e.employeeName
    passwordHash :=
      match u.passwordHash with
      | some p => if p = "" then p else bhash p
      | none => e.passwordHash
    updatedAt := now }

/-- Embeds `DatabaseStorage.updateEmployee`: update rows matching `id`, return
the first updated row. -/
def updateEmployee (bhash : String → String) (now : Nat) (db : DB)
    (id : Nat) (u : EmployeeUpdate) : Option Employee × DB :=
  let emps := db.employees.map
    (fun e => if e.id == id then applyEmployeeUpdate bhash now u e else e)
  ((emps.filter (fun e => e.id == id)).head?, { db with employees := emps })

/-- Embeds `DatabaseStorage.validateEmployeeCredentials`: look up by
`employeeId`; absent account and failed `bcrypt.compare` both return
`none`. `bcmp pw hash` stands for `bcrypt.compare(password, hash)`. -/
def validateEmployeeCredentials (bcmp : String → String → Bool) (db : DB)
    (employeeId password : String) : Option Employee :=
  match getEmployeeByEmployeeId db employeeId with
  | none => none
  | some e => if bcmp password e.passwordHash then some e else none

/-! ### storage.ts: daily report operations -/

/-- Predicate of the `where` clause in `DatabaseStorage.checkExistingReport`:
same `employeeId` and same `submissionDate`. -/
def reportKeyIs (employeeId : String) (d : Nat) (r : DailyReport) : Bool :=
  r.employeeId == employeeId && r.submissionDate == d

/-- Embeds `DatabaseStorage.checkExistingReport`. -/
def checkExistingReport (db : DB) (employeeId : String) (d : Nat) :
    Option DailyReport :=
  (db.dailyReports.filter (reportKeyIs employeeId d)).head?

/-- Embeds `DatabaseStorage.createDailyReport`: insert with a fresh uuid and
`created_at` defaulting to now; a missing `postersDone` takes the column
default `0`. -/
def createDailyReport (db : DB) (now : Nat) (ins : InsertDailyReport) :
    DailyReport × DB :=
  let r : DailyReport :=
    { id := db.nextId
      employeeId := ins.employeeId
      employeeName := ins.employeeName
      numberOfDials := ins.numberOfDials
      connectedCalls := ins.connectedCalls
      positiveProspect := ins.positiveProspect
      deadCalls := ins.deadCalls
      demos := ins.demos
      admission := ins.admission
      clientVisit := ins.clientVisit
      clientClosing := ins.clientClosing
      backdoorCalls := ins.backdoorCalls
      postersDone := ins.postersDone.getD 0
      submissionDate := ins.submissionDate
      createdAt := now }
  (r, { db with dailyReports := db.dailyReports ++ [r], nextId := db.nextId + 1 })

/-- Row transformation of `DatabaseStorage.updateDailyReport`: plain
spread of the supplied partial fields, no hashing, no timestamp touch,
and no uniqueness check. -/
def applyReportUpdate (u : ReportUpdate) (r : DailyReport) : DailyReport :=
  { r with
    employeeId := u.employeeId.getD r.employeeId
    employeeName := u.employeeName.getD r.employeeName
    numberOfDials := u.numberOfDials.getD r.numberOfDials
    connectedCalls := u.connectedCalls.getD r.connectedCalls
    positiveProspect := u.positiveProspect.getD r.positiveProspect
    deadCalls := u.deadCalls.getD r.deadCalls
    demos := u.demos.getD r.demos
    admission := u.admission.getD r.admission
    clientVisit := u.clientVisit.getD r.clientVisit
    clientClosing := u.clientClosing.getD r.clientClosing
    backdoorCalls := u.backdoorCalls.getD r.backdoorCalls
    postersDone := u.postersDone.getD r.postersDone
    submissionDate := u.submissionDate.getD r.submissionDate }

/-- Embeds `DatabaseStorage.updateDailyReport`. -/
def updateDailyReport (db : DB) (id : Nat) (u : ReportUpdate) :
    Option DailyReport × DB :=
  let reps := db.dailyReports.map
    (fun r => if r.id == id then applyReportUpdate u r else r)
  ((reps.filter (fun r => r.id == id)).head?, { db with dailyReports := reps })

/-- Optional filters accepted by `DatabaseStorage.getDailyReports`. -/
structure ReportFilters where
  employeeId : Option String := none
  startDate : Option Nat := none
  endDate : Option Nat := none
  limit : Option Nat := none
  offset : Option Nat := none
deriving Repr, DecidableEq

/-- Conjunction of the `where` conditions `getDailyReports` pushes: an
`employeeId` filter is pushed only when truthy (a supplied empty string
is dropped, `if (filters?.employeeId)`); supplied `Date` bounds are
always pushed, `gte`/`lte` on the submission date. -/
def matchesFilters (f : ReportFilters) (r : DailyReport) : Bool :=
  (match f.employeeId with
   | some e => e == "" || r.employeeId == e
   | none => true) &&
  (match f.startDate with
   | some d => decide (d ≤ r.submissionDate)
   | none => true) &&
  (match f.endDate with
   | some d => decide (r.submissionDate ≤ d)
   | none => true)

/-- The `orderBy(desc(submissionDate), desc(createdAt))` order: `a`
comes no later than `b`. -/
def reportOrder (a b : DailyReport) : Prop :=
  b.submissionDate < a.submissionDate ∨
    (a.submissionDate = b.submissionDate ∧ b.createdAt ≤ a.createdAt)

instance (a b : DailyReport) : Decidable (reportOrder a b) := by
  unfold reportOrder; infer_instance

instance : IsTotal DailyReport reportOrder :=
  ⟨fun a b => by unfold reportOrder; omega⟩

instance : IsTrans DailyReport reportOrder :=
  ⟨fun a b c hab hbc => by unfold reportOrder at *; omega⟩

/-- Embeds `DatabaseStorage.getDailyReports`: filter, order by submission date
then creation time (both descending), then apply `LIMIT`/`OFFSET` — but
each of the two only when the supplied number is truthy
(`if (filters?.limit)`, `if (filters?.offset)`), so a supplied `0` is
ignored. SQL applies the offset before the limit. -/
def getDailyReports (db : DB) (f : ReportFilters) : List DailyReport :=
  let sorted := List.insertionSort reportOrder
    (db.dailyReports.filter (matchesFilters f))
  let afterOffset :=
    match f.offset with
    | some m => if m ≠ 0 then sorted.drop m else sorted
    | none => sorted
  match f.limit with
  | some n => if n ≠ 0 then afterOffset.take n else afterOffset
  | none => afterOffset

/-! ### storage.ts: admin and session operations -/

/-- Embeds `DatabaseStorage.getAdminByUsername`. -/
def getAdminByUsername (db : DB) (username : String) : Option Admin :=
  (db.admins.filter (fun a => a.username == username)).head?

/-- Embeds `DatabaseStorage.validateAdminCredentials`: same shape as the
employee variant. -/
def validateAdminCredentials (bcmp : String → String → Bool) (db : DB)
    (username password : String) : Option Admin :=
  match getAdminByUsername db username with
  | none => none
  | some a => if bcmp password a.passwordHash then some a else none

/-- Session lifetime: `expiresAt.setDate(getDate() + 7)`. -/
def sevenDays : Nat := 7 * 24 * 60 * 60 * 1000

/-- Embeds `DatabaseStorage.createSession`: the token (built from `Date.now()`
and `Math.random()`) is passed in as `tok`; expiry is seven days from
now. -/
def createSession (db : DB) (now : Nat) (tok : String) (userId : Nat)
    (userType : UserType) : Session × DB :=
  let s : Session :=
    { id := tok, userId := userId, userType := userType
      expiresAt := now + sevenDays, createdAt := now }
  (s, { db with sessions := db.sessions ++ [s] })

/-- Embeds `DatabaseStorage.getSession`: select by token with the extra clause
`gte(sessions.expiresAt, new Date())`, i.e. the row is returned exactly
when `now ≤ expiresAt`. -/
def getSession (db : DB) (sessionId : String) (now : Nat) : Option Session :=
  (db.sessions.filter
    (fun s => s.id == sessionId && decide (now ≤ s.expiresAt))).head?

/-- Embeds `DatabaseStorage.deleteSession`. -/
def deleteSession (db : DB) (sessionId : String) : DB :=
  { db with sessions := db.sessions.filter (fun s => !(s.id == sessionId)) }

/-- Embeds `DatabaseStorage.cleanExpiredSessions`: delete every row with
`lte(expiresAt, now)`. -/
def cleanExpiredSessions (db : DB) (now : Nat) : DB :=
  { db with sessions := db.sessions.filter (fun s => !(decide (s.expiresAt ≤ now))) }

/-! ### routes.ts: authentication middleware and handlers -/

/-- A rejection sent by the middleware: HTTP status plus the JSON
`message`. -/
structure AuthReject where
  status : Nat
  message : String
deriving Repr, DecidableEq

/-- Embeds `authenticateEmployee` (routes.ts): a missing or empty token
(`if (!sessionId)`) is rejected as "No session token provided"; a token
that does not resolve, or resolves to a non-employee session
(`!session` or a `userType` other than employee), is rejected as
"Invalid or expired session"; otherwise the session is attached to the
request. -/
def authenticateEmployee (db : DB) (now : Nat) (sessionId : Option String) :
    Except AuthReject Session :=
  match sessionId with
  | none => .error { status := 401, message := "No session token provided" }
  | some sid =>
    if sid = "" then
      .error { status := 401, message := "No session token provided" }
    else
      match getSession db sid now with
      | none => .error { status := 401, message := "Invalid or expired session" }
      | some s =>
        if s.userType = UserType.employee then .ok s
        else .error { status := 401, message := "Invalid or expired session" }

/-- Embeds `authenticateAdmin` (routes.ts): identical shape, requiring
that `userType` equals admin. -/
def authenticateAdmin (db : DB) (now : Nat) (sessionId : Option String) :
    Except AuthReject Session :=
  match sessionId with
  | none => .error { status := 401, message := "No session token provided" }
  | some sid =>
    if sid = "" then
      .error { status := 401, message := "No session token provided" }
    else
      match getSession db sid now with
      | none => .error { status := 401, message := "Invalid or expired session" }
      | some s =>
        if s.userType = UserType.admin then .ok s
        else .error { status := 401, message := "Invalid or expired session" }

/-- Outcome of `POST /api/reports/submit`. -/
inductive SubmitOutcome where
  | notFound
  | conflict
  | ok (report : DailyReport)
deriving Repr, DecidableEq

/-- HTTP status of each submit outcome (routes.ts: 404 "Employee not
found", 409 "Report for today already submitted", 200 on success). -/
def SubmitOutcome.status : SubmitOutcome → Nat
  | .notFound => 404
  | .conflict => 409
  | .ok _ => 200

/-- The `POST /api/reports/submit` handler body (routes.ts), after the
middleware resolved the session to `userId` and `insertDailyReportSchema`
accepted the body: load the employee (404 if gone), compute `today`,
409 if `checkExistingReport` finds a row for (employee.employeeId,
today), else insert the body with `employeeId`, `employeeName` and
`submissionDate` overwritten from data held by the server. `now` is the
insertion timestamp, `today` the current calendar date of the server. -/
def submitReport (db : DB) (now today : Nat) (userId : Nat)
    (body : InsertDailyReport) : SubmitOutcome × DB :=
  match getEmployee db userId with
  | none => (.notFound, db)
  | some emp =>
    match checkExistingReport db emp.employeeId today with
    | some _ => (.conflict, db)
    | none =>
      let ins : InsertDailyReport :=
        { body with
          employeeId := emp.employeeId
          employeeName := emp.employeeName
          submissionDate := today }
      let rdb := createDailyReport db now ins
      (.ok rdb.1, rdb.2)

/-- Outcome of a login endpoint: 400 on schema failure, 401 with the
generic message of the endpoint on bad credentials, 200 with the fresh
session token on success. -/
inductive LoginResult where
  | badRequest
  | unauthorized (message : String)
  | ok (sessionToken : String) (userId : Nat)
deriving Repr, DecidableEq

/-- HTTP status of each login outcome. -/
def LoginResult.status : LoginResult → Nat
  | .badRequest => 400
  | .unauthorized _ => 401
  | .ok _ _ => 200

/-- The `POST /api/employee/login` handler (routes.ts):
`employeeLoginSchema` demands nonempty `employeeId` and `password`
(400 otherwise); failed validation yields 401
"Invalid employee ID or password"; success creates an employee
session. -/
def loginEmployee (bcmp : String → String → Bool) (db : DB) (now : Nat)
    (tok : String) (employeeId password : String) : LoginResult × DB :=
  if employeeId = "" ∨ password = "" then (.badRequest, db)
  else
    match validateEmployeeCredentials bcmp db employeeId password with
    | none => (.unauthorized "Invalid employee ID or password", db)
    | some emp =>
      let sdb := createSession db now tok emp.id UserType.employee
      (.ok sdb.1.id emp.id, sdb.2)

/-- The `POST /api/admin/login` handler (routes.ts), same shape with
message "Invalid username or password". -/
def loginAdmin (bcmp : String → String → Bool) (db : DB) (now : Nat)
    (tok : String) (username password : String) : LoginResult × DB :=
  if username = "" ∨ password = "" then (.badRequest, db)
  else
    match validateAdminCredentials bcmp db username password with
    | none => (.unauthorized "Invalid username or password", db)
    | some a =>
      let sdb := createSession db now tok a.id UserType.admin
      (.ok sdb.1.id a.id, sdb.2)

/-! ### Specification-side predicates -/

/-- The uniqueness invariant of the spec: at most one report per
(`employeeId`, `submissionDate`) pair. -/
def reportKeyUnique (l : List DailyReport) : Prop :=
  List.Pairwise
    (fun a b => ¬ (a.employeeId = b.employeeId ∧ a.submissionDate = b.submissionDate)) l

instance (l : List DailyReport) : Decidable (reportKeyUnique l) := by
  unfold reportKeyUnique; infer_instance

/-- Modelled from the words of the spec for `query(filters)`: the pure
conjunction of the supplied optional filters — employee id by exact
match, date range as inclusive bounds on the submission date. Used to
compare `getDailyReports` against the spec. -/
def specMatches (f : ReportFilters) (r : DailyReport) : Prop :=
  (∀ e, f.employeeId = some e → r.employeeId = e) ∧
  (∀ d, f.startDate = some d → d ≤ r.submissionDate) ∧
  (∀ d, f.endDate = some d → r.submissionDate ≤ d)

instance (f : ReportFilters) (r : DailyReport) : Decidable (specMatches f r) := by
  unfold specMatches
  rcases f with ⟨e?, s?, d?, l?, o?⟩
  rcases e? with _ | e <;> rcases s? with _ | s <;> rcases d? with _ | d <;>
    · simp only
      infer_instance

/-- Modelled from the words of the spec: pagination as plain drop/take, an
absent offset dropping nothing and an absent limit keeping all. -/
def paginate (limit? offset? : Option Nat) (l : List DailyReport) :
    List DailyReport :=
  let dropped := l.drop (offset?.getD 0)
  match limit? with
  | some n => dropped.take n
  | none => dropped

/-- The counter payload of a submit body: every field except the three
server-overwritten ones (`employeeId`, `employeeName`,
`submissionDate`). -/
def countersEq (a b : InsertDailyReport) : Prop :=
  a.numberOfDials = b.numberOfDials ∧
  a.connectedCalls = b.connectedCalls ∧
  a.positiveProspect = b.positiveProspect ∧
  a.deadCalls = b.deadCalls ∧
  a.demos = b.demos ∧
  a.admission = b.admission ∧
  a.clientVisit = b.clientVisit ∧
  a.clientClosing = b.clientClosing ∧
  a.backdoorCalls = b.backdoorCalls ∧
  a.postersDone = b.postersDone

instance (a b : InsertDailyReport) : Decidable (countersEq a b) := by
  unfold countersEq; infer_instance

/-- Relation between an employee row before and after `updateEmployee`:
rows with a different `id` are untouched; a field omitted from the
partial update keeps its previous value (in particular the stored
password hash when the password is omitted); a supplied nonempty
password is stored as its fresh bcrypt digest. -/
def employeeMergeRel (bhash : String → String) (eid : Nat)
    (u : EmployeeUpdate) (e e' : Employee) : Prop :=
  (e.id ≠ eid → e' = e) ∧
  (u.employeeId = none → e'.employeeId = e.employeeId) ∧
  (u.employeeName = none → e'.employeeName = e.employeeName) ∧
  (u.passwordHash = none → e'.passwordHash = e.passwordHash) ∧
  (∀ p, u.passwordHash = some p → p ≠ "" → e.id = eid →
    e'.passwordHash = bhash p) ∧
  e'.createdAt = e.createdAt ∧
  e'.id = e.id

/-- Relation between a report row before and after `updateDailyReport`:
rows with a different `id` are untouched; every field omitted from the
partial update keeps its previous value. -/
def reportMergeRel (rid : Nat) (v : ReportUpdate) (r r' : DailyReport) : Prop :=
  (r.id ≠ rid → r' = r) ∧
  (v.employeeId = none → r'.employeeId = r.employeeId) ∧
  (v.employeeName = none → r'.employeeName = r.employeeName) ∧
  (v.numberOfDials = none → r'.numberOfDials = r.numberOfDials) ∧
  (v.connectedCalls = none → r'.connectedCalls = r.connectedCalls) ∧
  (v.positiveProspect = none → r'.positiveProspect = r.positiveProspect) ∧
  (v.deadCalls = none → r'.deadCalls = r.deadCalls) ∧
  (v.demos = none → r'.demos = r.demos) ∧
  (v.admission = none → r'.admission = r.admission) ∧
  (v.clientVisit = none → r'.clientVisit = r.clientVisit) ∧
  (v.clientClosing = none → r'.clientClosing = r.clientClosing) ∧
  (v.backdoorCalls = none → r'.backdoorCalls = r.backdoorCalls) ∧
  (v.postersDone = none → r'.postersDone = r.postersDone) ∧
  (v.submissionDate = none → r'.submissionDate = r.submissionDate) ∧
  r'.createdAt = r.createdAt ∧
  r'.id = r.id

/-! ### Concrete sample data for witnesses and counterexamples -/

/-- A report row with the given key fields and all counters small. -/
def mkReport (id : Nat) (eid : String) (d cAt : Nat) : DailyReport :=
  { id := id, employeeId := eid, employeeName := "N"
    numberOfDials := 1, connectedCalls := 1, positiveProspect := 0
    deadCalls := 0, demos := 0, admission := 0, clientVisit := 0
    clientClosing := 0, backdoorCalls := 0, postersDone := 0
    submissionDate := d, createdAt := cAt }

/-- A sample employee account. -/
def sampleEmp : Employee :=
  { id := 1, employeeId := "EMP001", employeeName := "Asha"
    passwordHash := "stored-hash", createdAt := 0, updatedAt := 0 }

/-- A submit body carrying client-chosen identity fields that the
server must ignore. -/
def sampleBody : InsertDailyReport :=
  { employeeId := "SPOOF", employeeName := "Spoof"
    numberOfDials := 10, connectedCalls := 5, positiveProspect := 2
    deadCalls := 1, demos := 1, admission := 0, clientVisit := 0
    clientClosing := 0, backdoorCalls := 0, postersDone := none
    submissionDate := 999 }

/-- The same counters as `sampleBody` with different client-chosen
identity fields. -/
def sampleBody2 : InsertDailyReport :=
  { sampleBody with
    employeeId := "OTHER", employeeName := "Other", submissionDate := 123 }

/-- A state with one employee and no reports. -/
def baseDB : DB :=
  { employees := [sampleEmp], dailyReports := [], admins := []
    sessions := [], nextId := 0 }

/-- The report created by `submitReport baseDB 5 20 1 sampleBody`. -/
def w1report : DailyReport :=
  { id := 0, employeeId := "EMP001", employeeName := "Asha"
    numberOfDials := 10, connectedCalls := 5, positiveProspect := 2
    deadCalls := 1, demos := 1, admission := 0, clientVisit := 0
    clientClosing := 0, backdoorCalls := 0, postersDone := 0
    submissionDate := 20, createdAt := 5 }

/-- The state after that successful submit. -/
def w1db : DB := { baseDB with dailyReports := [w1report], nextId := 1 }

/-- Two reports whose (employeeId, submissionDate) keys differ. -/
def c2db : DB :=
  { employees := [], admins := [], sessions := [], nextId := 2
    dailyReports := [mkReport 0 "E1" 10 1, mkReport 1 "E2" 11 2] }

/-- An admin update retargeting report 1 onto the key of report 0. -/
def c2upd : ReportUpdate := { employeeId := some "E1", submissionDate := some 10 }

/-- One employee session whose expiry is exactly 5. -/
def c3db : DB :=
  { employees := [], dailyReports := [], admins := [], nextId := 0
    sessions := [{ id := "tok", userId := 1, userType := UserType.employee
                   expiresAt := 5, createdAt := 0 }] }

/-- A valid, unexpired admin session. -/
def admSession : Session :=
  { id := "adm", userId := 2, userType := UserType.admin
    expiresAt := 1000, createdAt := 0 }

/-- A state holding only the admin session. -/
def c5db : DB :=
  { employees := [], dailyReports := [], admins := [], nextId := 0
    sessions := [admSession] }

/-- Plaintext-equality comparison standing in for `bcrypt.compare` in
concrete witnesses. -/
def cmpEq : String → String → Bool := fun p h => p == h

/-- Prefixing function standing in for `bcrypt.hash` in concrete
witnesses; every digest starts with a marker, so it never equals its
input. -/
def hashPre : String → String := fun s => String.append "$2b$10$" s

/-- A state with a single report for "EMP001". -/
def c6db : DB :=
  { employees := [], admins := [], sessions := [], nextId := 1
    dailyReports := [mkReport 0 "EMP001" 10 1] }

/-- The degenerate filter carrying an empty employee id. -/
def c6f : ReportFilters := { employeeId := some "" }

/-- Three reports for the query witness: two for "EMP001" inside the
date window, one outside. -/
def w6db : DB :=
  { employees := [], admins := [], sessions := [], nextId := 3
    dailyReports := [mkReport 0 "EMP001" 10 1, mkReport 1 "EMP001" 12 2,
                     mkReport 2 "EMP001" 99 3] }

/-- Conjunctive filters with pagination for the query witness. -/
def w6f : ReportFilters :=
  { employeeId := some "EMP001", startDate := some 5, endDate := some 15
    limit := some 1, offset := none }

/-- The employee update supplying an empty-string password. -/
def c7upd : EmployeeUpdate := { passwordHash := some "" }

/-- An update touching only the display name. -/
def w7upd : EmployeeUpdate := { employeeName := some "Bela" }

/-- A session sweep scenario: one expired row, one live row. -/
def deadSession : Session :=
  { id := "dead", userId := 1, userType := UserType.employee
    expiresAt := 50, createdAt := 0 }

/-- The live row of the sweep scenario. -/
def liveSession : Session :=
  { id := "live", userId := 1, userType := UserType.employee
    expiresAt := 200, createdAt := 0 }

/-- The sweep scenario state. -/
def c8db : DB :=
  { employees := [sampleEmp], dailyReports := [mkReport 0 "EMP001" 10 1]
    admins := [], sessions := [deadSession, liveSession], nextId := 1 }

/-! ### Theorems -/

/-- Helper: a map over a list is pointwise related to the original. -/
theorem forall2_map_self {α : Type} (f : α → α) (R : α → α → Prop)
    (l : List α) (h : ∀ a ∈ l, R a (f a)) : List.Forall₂ R l (l.map f) := by
  rw [List.forall₂_map_right_iff]
  exact List.forall₂_same.2 h

/-- C8: `cleanExpiredSessions` deletes exactly the session rows whose
expiry is ≤ now — a session survives the sweep iff it was present and
its expiry is strictly in the future — the surviving rows keep their
relative order, and the other three tables (and the id generator) are
untouched. -/
theorem cleanExpiredSessions_spec (db : DB) (now : Nat) :
    (∀ s, s ∈ (cleanExpiredSessions db now).sessions ↔
        s ∈ db.sessions ∧ now < s.expiresAt) ∧
    (cleanExpiredSessions db now).sessions.Sublist db.sessions ∧
    (cleanExpiredSessions db now).employees = db.employees ∧
    (cleanExpiredSessions db now).dailyReports = db.dailyReports ∧
    (cleanExpiredSessions db now).admins = db.admins ∧
    (cleanExpiredSessions db now).nextId = db.nextId := by
  refine ⟨fun s => ?_, List.filter_sublist _, rfl, rfl, rfl, rfl⟩
  simp [cleanExpiredSessions, List.mem_filter, Nat.lt_iff_add_one_le,
    Nat.not_le]

/-- C8 witness: in the concrete sweep scenario the live session is kept
by the sweep at time 100. -/
theorem cleanExpiredSessions_spec_witness :
    liveSession ∈ (cleanExpiredSessions c8db 100).sessions :=
  ((cleanExpiredSessions_spec c8db 100).1 liveSession).2 ⟨by decide, by decide⟩

/-- C10: `getDailyReports` applies limit and offset only when the
supplied value is nonzero: a call with `limit = 0` behaves exactly like
a call with no limit (so it returns all matching reports), and a call
with `offset = 0` behaves exactly like a call with no offset. -/
theorem getDailyReports_zero_pagination (db : DB) (f : ReportFilters) :
    getDailyReports db { f with limit := some 0 } =
      getDailyReports db { f with limit := none } ∧
    getDailyReports db { f with offset := some 0 } =
      getDailyReports db { f with offset := none } := by
  obtain ⟨e?, s?, d?, l?, o?⟩ := f
  constructor
  · cases o? with
    | none => rfl
    | some m =>
      simp [getDailyReports]
      split <;> rfl
  · cases l? with
    | none => rfl
    | some n =>
      simp [getDailyReports]
      split <;> rfl

/-- C3 counterexample: with a session whose expiry is 5, at now = 5
(so now ≥ expiry) `getSession` still returns the row — not the
absent-token result `none` that the claim requires at now ≥ expiry. -/
theorem getSession_boundary_counterexample :
    5 ≥ 5 ∧ getSession c3db "tok" 5 ≠ none ∧
      getSession c3db "missing" 5 = none := by decide

/-- C3 (amended): `getSession` returns a session iff a row with that
token exists whose expiry satisfies now ≤ expiry (the `gte`
comparison in the code, so a token is still valid at the expiry instant itself);
any returned session is such a row; and when every row carrying the
token is strictly expired the result is `none`, identical to an absent
token, even if the sweep has not run. -/
theorem getSession_spec (db : DB) (t : String) (now : Nat) :
    (getSession db t now ≠ none ↔
      ∃ s ∈ db.sessions, s.id = t ∧ now ≤ s.expiresAt) ∧
    (∀ s, getSession db t now = some s →
      s ∈ db.sessions ∧ s.id = t ∧ now ≤ s.expiresAt) ∧
    ((∀ s ∈ db.sessions, s.id = t → s.expiresAt < now) →
      getSession db t now = none) := by
  refine ⟨?_, fun s hs => ?_, fun h => ?_⟩
  · rw [getSession, Ne, List.head?_eq_none_iff, List.filter_eq_nil_iff]
    push_neg
    constructor
    · rintro ⟨s, hmem, hcond⟩
      have hc : (s.id == t && decide (now ≤ s.expiresAt)) = true := by
        simpa using hcond
      simp only [Bool.and_eq_true, beq_iff_eq, decide_eq_true_eq] at hc
      exact ⟨s, hmem, hc.1, hc.2⟩
    · rintro ⟨s, hmem, hid, hexp⟩
      exact ⟨s, hmem, by simp [hid, hexp]⟩
  · have hmem : s ∈ (db.sessions.filter
        (fun s => s.id == t && decide (now ≤ s.expiresAt))) :=
      List.mem_of_mem_head? (by rw [getSession] at hs; simp [hs])
    have hthis := List.mem_filter.1 hmem
    have h2 := hthis.2
    simp only [Bool.and_eq_true, beq_iff_eq, decide_eq_true_eq] at h2
    exact ⟨hthis.1, h2.1, h2.2⟩
  · rw [getSession, List.head?_eq_none_iff, List.filter_eq_nil_iff]
    intro s hmem
    simp only [Bool.and_eq_true, beq_iff_eq, decide_eq_true_eq, not_and]
    intro hid
    have := h s hmem hid
    omega

/-- C3 witness: at time 99 the session that expired at 5 resolves to
nothing, exactly like an absent token. -/
theorem getSession_spec_witness : getSession c3db "tok" 99 = none :=
  (getSession_spec c3db "tok" 99).2.2 (by decide)

/-- C4: an unknown account and a known account with a failing password
are indistinguishable to the caller — in both cases credential
validation returns `none` and the login endpoint returns the very same
401 response with the generic message, leaving the state unchanged; the
admin-side validator behaves the same way. -/
theorem login_no_enumeration (bcmp : String → String → Bool) (db : DB)
    (now : Nat) (tok : String) (uid pw : String)
    (hu : uid ≠ "") (hp : pw ≠ "") :
    (getEmployeeByEmployeeId db uid = none →
      validateEmployeeCredentials bcmp db uid pw = none ∧
      loginEmployee bcmp db now tok uid pw =
        (.unauthorized "Invalid employee ID or password", db)) ∧
    (∀ e, getEmployeeByEmployeeId db uid = some e →
      bcmp pw e.passwordHash = false →
      validateEmployeeCredentials bcmp db uid pw = none ∧
      loginEmployee bcmp db now tok uid pw =
        (.unauthorized "Invalid employee ID or password", db)) ∧
    (getAdminByUsername db uid = none →
      validateAdminCredentials bcmp db uid pw = none ∧
      loginAdmin bcmp db now tok uid pw =
        (.unauthorized "Invalid username or password", db)) ∧
    (∀ a, getAdminByUsername db uid = some a →
      bcmp pw a.passwordHash = false →
      validateAdminCredentials bcmp db uid pw = none ∧
      loginAdmin bcmp db now tok uid pw =
        (.unauthorized "Invalid username or password", db)) ∧
    (LoginResult.unauthorized "Invalid employee ID or password").status = 401 ∧
    (LoginResult.unauthorized "Invalid username or password").status = 401 := by
  refine ⟨fun h0 => ?_, fun e he hc => ?_, fun h0 => ?_, fun a ha hc => ?_,
    rfl, rfl⟩
  · have hv : validateEmployeeCredentials bcmp db uid pw = none := by
      simp [validateEmployeeCredentials, h0]
    exact ⟨hv, by simp [loginEmployee, hv, hu, hp]⟩
  · have hv : validateEmployeeCredentials bcmp db uid pw = none := by
      simp [validateEmployeeCredentials, he, hc]
    exact ⟨hv, by simp [loginEmployee, hv, hu, hp]⟩
  · have hv : validateAdminCredentials bcmp db uid pw = none := by
      simp [validateAdminCredentials, h0]
    exact ⟨hv, by simp [loginAdmin, hv, hu, hp]⟩
  · have hv : validateAdminCredentials bcmp db uid pw = none := by
      simp [validateAdminCredentials, ha, hc]
    exact ⟨hv, by simp [loginAdmin, hv, hu, hp]⟩

/-- C4 witness: for the account "EMP001" with a wrong password, the
endpoint answers exactly the generic 401 pair and leaves the state
unchanged. -/
theorem login_no_enumeration_witness :
    validateEmployeeCredentials cmpEq baseDB "EMP001" "wrong" = none ∧
    loginEmployee cmpEq baseDB 0 "tok" "EMP001" "wrong" =
      (.unauthorized "Invalid employee ID or password", baseDB) :=
  (login_no_enumeration cmpEq baseDB 0 "tok" "EMP001" "wrong"
    (by decide) (by decide)).2.1 sampleEmp (by decide) (by decide)

/-- C5 counterexample: a valid, unexpired admin session token presented
to the employee middleware is rejected with a different body
("Invalid or expired session") than presenting no token at all
("No session token provided"), so the responses are not identical as
the claim requires. -/
theorem wrong_kind_token_counterexample :
    getSession c5db "adm" 10 = some admSession ∧
    authenticateEmployee c5db 10 (some "adm") =
      .error { status := 401, message := "Invalid or expired session" } ∧
    authenticateEmployee c5db 10 none =
      .error { status := 401, message := "No session token provided" } ∧
    ("Invalid or expired session" : String) ≠ "No session token provided" :=
  ⟨by decide, rfl, rfl, by decide⟩

/-- C5 (amended): a valid token of the wrong principal kind is rejected
with exactly the response used for an invalid or expired token —
status 401, body "Invalid or expired session" — which shares the 401
status with, but not the body of, the missing-token rejection
"No session token provided". -/
theorem wrong_kind_rejection (db : DB) (now : Nat) (t : String)
    (s : Session) (ht : t ≠ "") (hres : getSession db t now = some s) :
    (s.userType ≠ UserType.employee →
      authenticateEmployee db now (some t) =
        .error { status := 401, message := "Invalid or expired session" }) ∧
    (s.userType ≠ UserType.admin →
      authenticateAdmin db now (some t) =
        .error { status := 401, message := "Invalid or expired session" }) ∧
    (∀ t', t' ≠ "" → getSession db t' now = none →
      authenticateEmployee db now (some t') =
        .error { status := 401, message := "Invalid or expired session" } ∧
      authenticateAdmin db now (some t') =
        .error { status := 401, message := "Invalid or expired session" }) ∧
    authenticateEmployee db now none =
      .error { status := 401, message := "No session token provided" } ∧
    authenticateAdmin db now none =
      .error { status := 401, message := "No session token provided" } := by
  refine ⟨fun hk => ?_, fun hk => ?_, fun t' ht' hn => ?_, rfl, rfl⟩
  · simp [authenticateEmployee, ht, hres, hk]
  · simp [authenticateAdmin, ht, hres, hk]
  · constructor
    · simp [authenticateEmployee, ht', hn]
    · simp [authenticateAdmin, ht', hn]

/-- C5 witness: the concrete admin session rejected by the employee
middleware with the invalid-session body. -/
theorem wrong_kind_rejection_witness :
    authenticateEmployee c5db 10 (some "adm") =
      .error { status := 401, message := "Invalid or expired session" } :=
  (wrong_kind_rejection c5db 10 "adm" admSession (by decide)
    (by decide)).1 (by decide)

/-- Helper: employee lookup ignores the report table and the id
generator. -/
theorem getEmployee_update_reports (db : DB) (X : List DailyReport)
    (Y : Nat) (uid : Nat) :
    getEmployee { db with dailyReports := X, nextId := Y } uid =
      getEmployee db uid := rfl

/-- Helper: the duplicate check reads just the report table. -/
theorem checkExisting_update (db : DB) (X : List DailyReport) (Y : Nat)
    (e : String) (d : Nat) :
    checkExistingReport { db with dailyReports := X, nextId := Y } e d =
      (X.filter (reportKeyIs e d)).head? := rfl

/-- C1: once a submit for (employee, today) has succeeded, an immediate
second submit for the same employee and date — whatever its body and
insertion timestamp — returns the conflict outcome (HTTP 409) and
returns the state unchanged, so no second row is created. -/
theorem submit_second_conflict (db : DB) (now today uid : Nat)
    (b1 : InsertDailyReport) (r : DailyReport) (db' : DB)
    (h : submitReport db now today uid b1 = (.ok r, db')) :
    ∀ (now2 : Nat) (b2 : InsertDailyReport),
      submitReport db' now2 today uid b2 = (.conflict, db') ∧
      SubmitOutcome.conflict.status = 409 := by
  intro now2 b2
  refine ⟨?_, rfl⟩
  unfold submitReport at h
  cases hemp : getEmployee db uid with
  | none => simp [hemp] at h
  | some emp =>
    simp only [hemp] at h
    cases hchk : checkExistingReport db emp.employeeId today with
    | some r0 => simp [hchk] at h
    | none =>
      simp only [hchk, createDailyReport, Prod.mk.injEq,
        SubmitOutcome.ok.injEq] at h
      obtain ⟨hr, hdb⟩ := h
      subst hdb
      have hnil : db.dailyReports.filter (reportKeyIs emp.employeeId today)
          = [] := by
        rw [checkExistingReport, List.head?_eq_none_iff] at hchk
        exact hchk
      unfold submitReport
      rw [getEmployee_update_reports, hemp]
      dsimp only
      rw [checkExisting_update, List.filter_append, hnil]
      simp [reportKeyIs]

/-- C1 witness: in the concrete single-employee state, the first submit
succeeds and the second one conflicts with the state unchanged. -/
theorem submit_second_conflict_witness :
    submitReport baseDB 5 20 1 sampleBody = (.ok w1report, w1db) ∧
    (submitReport w1db 6 20 1 sampleBody2 = (.conflict, w1db) ∧
      SubmitOutcome.conflict.status = 409) :=
  ⟨by decide,
   submit_second_conflict baseDB 5 20 1 sampleBody w1report w1db
     (by decide) 6 sampleBody2⟩

/-- C2 counterexample: starting from a state whose report table
satisfies the uniqueness invariant, the admin update operation
`updateDailyReport` — which checks nothing — retargets report 1 onto
the (employeeId, submissionDate) key of report 0 and produces a state with
a duplicate pair, so not every write operation preserves the
invariant. -/
theorem update_breaks_reportKeyUnique_counterexample :
    reportKeyUnique c2db.dailyReports ∧
    ¬ reportKeyUnique (updateDailyReport c2db 1 c2upd).2.dailyReports := by
  decide

/-- C2 (amended): the submit operation preserves the invariant — its
check-then-insert only appends a row for a (employeeId, today) pair
that has no existing row — but `updateDailyReport` (and the raw insert
`createDailyReport`) perform no uniqueness check and can violate it. -/
theorem submit_preserves_reportKeyUnique (db : DB) (now today uid : Nat)
    (b : InsertDailyReport) (hu : reportKeyUnique db.dailyReports) :
    reportKeyUnique (submitReport db now today uid b).2.dailyReports := by
  unfold submitReport
  cases hemp : getEmployee db uid with
  | none => exact hu
  | some emp =>
    dsimp only
    cases hchk : checkExistingReport db emp.employeeId today with
    | some r0 => exact hu
    | none =>
      dsimp only [createDailyReport]
      unfold reportKeyUnique at hu ⊢
      rw [List.pairwise_append]
      refine ⟨hu, by simp, ?_⟩
      intro a ha b' hb'
      simp only [List.mem_singleton] at hb'
      subst hb'
      have hnil : db.dailyReports.filter (reportKeyIs emp.employeeId today)
          = [] := by
        rw [checkExistingReport, List.head?_eq_none_iff] at hchk
        exact hchk
      have hnot := List.filter_eq_nil_iff.1 hnil a ha
      simp only [reportKeyIs, Bool.and_eq_true, beq_iff_eq, not_and] at hnot
      intro hcontra
      exact hnot hcontra.1 hcontra.2

/-- C2 witness: submitting into the concrete one-employee, no-report
state keeps the invariant. -/
theorem submit_preserves_reportKeyUnique_witness :
    reportKeyUnique baseDB.dailyReports ∧
    reportKeyUnique (submitReport baseDB 5 20 1 sampleBody).2.dailyReports :=
  ⟨by decide, submit_preserves_reportKeyUnique baseDB 5 20 1 sampleBody
    (by decide)⟩

/-- C9: a successful authenticated submit stores the employee id and
name of the account resolved from the session and the server's current
calendar date, appending exactly one row; and the client-supplied
`employeeId`, `employeeName` and `submissionDate` in the body never
influence the outcome — two bodies with equal counters produce
identical results. -/
theorem submit_server_authoritative (db : DB) (now today uid : Nat)
    (b : InsertDailyReport) :
    (∀ r db', submitReport db now today uid b = (.ok r, db') →
      ∃ emp, getEmployee db uid = some emp ∧
        r.employeeId = emp.employeeId ∧
        r.employeeName = emp.employeeName ∧
        r.submissionDate = today ∧
        db'.dailyReports = db.dailyReports ++ [r]) ∧
    (∀ b2, countersEq b b2 →
      submitReport db now today uid b2 = submitReport db now today uid b) := by
  constructor
  · intro r db' h
    unfold submitReport at h
    cases hemp : getEmployee db uid with
    | none => simp [hemp] at h
    | some emp =>
      simp only [hemp] at h
      cases hchk : checkExistingReport db emp.employeeId today with
      | some r0 => simp [hchk] at h
      | none =>
        simp only [hchk, createDailyReport, Prod.mk.injEq,
          SubmitOutcome.ok.injEq] at h
        obtain ⟨hr, hdb⟩ := h
        subst hdb
        exact ⟨emp, rfl, by rw [← hr], by rw [← hr], by rw [← hr], by
          rw [← hr]⟩
  · intro b2 hc
    unfold countersEq at hc
    obtain ⟨h1, h2, h3, h4, h5, h6, h7, h8, h9, h10⟩ := hc
    unfold submitReport
    cases getEmployee db uid with
    | none => rfl
    | some emp =>
      dsimp only
      cases checkExistingReport db emp.employeeId today with
      | some r0 => rfl
      | none =>
        dsimp only [createDailyReport]
        rw [h1, h2, h3, h4, h5, h6, h7, h8, h9, h10]

/-- C9 witness: swapping the client-chosen identity fields of the body
leaves the submit result unchanged on the concrete state. -/
theorem submit_server_authoritative_witness :
    countersEq sampleBody sampleBody2 ∧
    submitReport baseDB 5 20 1 sampleBody2 =
      submitReport baseDB 5 20 1 sampleBody :=
  ⟨by decide,
   (submit_server_authoritative baseDB 5 20 1 sampleBody).2 sampleBody2
     (by decide)⟩

/-- Helper: the row transformation of `updateEmployee` satisfies the
merge relation for every row. -/
theorem applyEmployeeUpdate_mergeRel (bhash : String → String) (now : Nat)
    (eid : Nat) (u : EmployeeUpdate) (e : Employee) :
    employeeMergeRel bhash eid u e
      (if e.id == eid then applyEmployeeUpdate bhash now u e else e) := by
  by_cases hid : e.id = eid
  · simp only [hid, beq_self_eq_true, if_true]
    unfold employeeMergeRel applyEmployeeUpdate
    refine ⟨fun hc => absurd hid hc, fun h0 => ?_, fun h0 => ?_,
      fun h0 => ?_, fun p hp hpne _ => ?_, rfl, rfl⟩
    · simp [h0]
    · simp [h0]
    · simp [h0]
    · simp [hp, hpne]
  · have hb : (e.id == eid) = false := by simpa using hid
    rw [hb]
    simp [employeeMergeRel, hid]

/-- Helper: the row transformation of `updateDailyReport` satisfies the
merge relation for every row. -/
theorem applyReportUpdate_mergeRel (rid : Nat) (v : ReportUpdate)
    (r : DailyReport) :
    reportMergeRel rid v r (if r.id == rid then applyReportUpdate v r else r) := by
  by_cases hid : r.id = rid
  · simp only [hid, beq_self_eq_true, if_true]
    unfold reportMergeRel applyReportUpdate
    refine ⟨fun hc => absurd hid hc, ?_, ?_, ?_, ?_, ?_, ?_, ?_, ?_, ?_,
      ?_, ?_, ?_, ?_, rfl, rfl⟩ <;>
      · intro h0
        simp [h0]
  · have hb : (r.id == rid) = false := by simpa using hid
    rw [hb]
    simp [reportMergeRel, hid]

/-- C7 counterexample: supplying the empty string as the password stores
it verbatim — the stored value equals the supplied plaintext and is not
the bcrypt digest — because the truthiness check
`if (updateData.passwordHash)` skips the hashing for a falsy string. -/
theorem update_empty_password_counterexample :
    c7upd.passwordHash = some "" ∧
    ((updateEmployee hashPre 9 baseDB 1 c7upd).2.employees.map
      Employee.passwordHash) = [""] ∧
    hashPre "" ≠ "" := by decide

/-- C7 (amended): both update operations perform a partial merge — a
row with a different id is untouched, and every field omitted from the
partial update keeps its previous value, in particular an omitted
password leaves the stored hash untouched; a supplied nonempty password
is stored as its bcrypt digest and (digests never equal their input)
never as the plaintext, while a supplied empty-string password is
stored verbatim. -/
theorem update_partial_merge (bhash : String → String) (now : Nat)
    (db : DB) (eid : Nat) (u : EmployeeUpdate) (rid : Nat)
    (v : ReportUpdate) :
    List.Forall₂ (employeeMergeRel bhash eid u) db.employees
      (updateEmployee bhash now db eid u).2.employees ∧
    List.Forall₂ (reportMergeRel rid v) db.dailyReports
      (updateDailyReport db rid v).2.dailyReports ∧
    ((∀ s, bhash s ≠ s) → ∀ p, u.passwordHash = some p → p ≠ "" →
      List.Forall₂ (fun e e' => e.id = eid → e'.passwordHash ≠ p)
        db.employees (updateEmployee bhash now db eid u).2.employees) := by
  refine ⟨?_, ?_, fun hinj p hp hne => ?_⟩
  · exact forall2_map_self _ _ db.employees
      (fun e _ => applyEmployeeUpdate_mergeRel bhash now eid u e)
  · exact forall2_map_self _ _ db.dailyReports
      (fun r _ => applyReportUpdate_mergeRel rid v r)
  · refine forall2_map_self
      (fun e => if e.id == eid then applyEmployeeUpdate bhash now u e else e)
      (fun e e' => e.id = eid → e'.passwordHash ≠ p) db.employees ?_
    intro e _ hid
    simp only [hid, beq_self_eq_true, if_true, applyEmployeeUpdate, hp]
    simp only [hne, if_neg]
    exact hinj p

/-- C7 witness: an update supplying only the display name leaves the
stored password hash (and every other omitted field) unchanged on the
concrete state. -/
theorem update_partial_merge_witness :
    List.Forall₂ (employeeMergeRel hashPre 1 w7upd) baseDB.employees
      (updateEmployee hashPre 9 baseDB 1 w7upd).2.employees :=
  (update_partial_merge hashPre 9 baseDB 1 w7upd 0 {}).1

/-- Helper: the pushed filter conditions coincide with the conjunctive
reading of the spec whenever the employee filter is not the degenerate
empty string. -/
theorem matchesFilters_iff_spec (f : ReportFilters) (r : DailyReport)
    (he : f.employeeId ≠ some "") :
    matchesFilters f r = true ↔ specMatches f r := by
  obtain ⟨e?, s?, d?, l?, o?⟩ := f
  rcases e? with _ | e <;> rcases s? with _ | s <;> rcases d? with _ | d <;>
    simp_all [matchesFilters, specMatches, and_assoc]

/-- C6 counterexample: with a single report for "EMP001" and the filter
`employeeId = ""` (supplied but empty), the query returns that report
even though it does not satisfy the exact-match filter, because the
truthiness check drops the empty-string condition — so the claimed
"exactly the reports satisfying the conjunction of the supplied
filters" fails at this input. -/
theorem empty_employee_filter_counterexample :
    getDailyReports c6db c6f = [mkReport 0 "EMP001" 10 1] ∧
    ¬ specMatches c6f (mkReport 0 "EMP001" 10 1) :=
  ⟨by decide, fun h => absurd (h.1 "" rfl) (by decide)⟩

/-- C6 (amended): for every filter combination in which a supplied
employeeId is nonempty (an empty string is treated as no filter) and
supplied limit/offset are nonzero (a zero is treated as absent), the
query returns exactly the reports satisfying the conjunction of the
supplied filters — employeeId by exact match, startDate/endDate as
inclusive bounds — ordered by submission date descending then creation
time descending, then cut by offset and limit; with no filters the
unpaginated query returns all reports in that order. -/
theorem getDailyReports_spec (db : DB) (f : ReportFilters)
    (he : f.employeeId ≠ some "") (hl : f.limit ≠ some 0)
    (ho : f.offset ≠ some 0) :
    (∀ r, r ∈ getDailyReports db { f with limit := none, offset := none } ↔
      r ∈ db.dailyReports ∧ specMatches f r) ∧
    List.Sorted reportOrder (getDailyReports db f) ∧
    getDailyReports db f =
      paginate f.limit f.offset
        (getDailyReports db { f with limit := none, offset := none }) := by
  obtain ⟨e?, s?, d?, l?, o?⟩ := f
  refine ⟨fun r => ?_, ?_, ?_⟩
  · simp only [getDailyReports]
    rw [(List.perm_insertionSort reportOrder _).mem_iff, List.mem_filter]
    exact and_congr_right fun _ =>
      matchesFilters_iff_spec
        { employeeId := e?, startDate := s?, endDate := d?
          limit := none, offset := none } r he
  · have hs := List.sorted_insertionSort reportOrder
      (db.dailyReports.filter (matchesFilters
        { employeeId := e?, startDate := s?, endDate := d?
          limit := l?, offset := o? }))
    simp only [getDailyReports]
    rcases o? with _ | m <;> rcases l? with _ | n
    · exact hs
    · have hn : n ≠ 0 := by simpa using hl
      simp only [hn, if_true, ne_eq, not_false_eq_true]
      exact List.Pairwise.sublist (List.take_sublist _ _) hs
    · have hm : m ≠ 0 := by simpa using ho
      simp only [hm, if_true, ne_eq, not_false_eq_true]
      exact List.Pairwise.sublist (List.drop_sublist _ _) hs
    · have hn : n ≠ 0 := by simpa using hl
      have hm : m ≠ 0 := by simpa using ho
      simp only [hn, hm, if_true, ne_eq, not_false_eq_true]
      exact List.Pairwise.sublist
        ((List.take_sublist _ _).trans (List.drop_sublist _ _)) hs
  · simp only [getDailyReports, paginate]
    rcases o? with _ | m <;> rcases l? with _ | n
    · simp
    · have hn : n ≠ 0 := by simpa using hl
      simp [hn]
      rfl
    · have hm : m ≠ 0 := by simpa using ho
      simp [hm]
      rfl
    · have hn : n ≠ 0 := by simpa using hl
      have hm : m ≠ 0 := by simpa using ho
      simp [hn, hm]
      rfl

/-- C6 witness: on the concrete three-report state, the filtered,
paginated query result is sorted in the required order. -/
theorem getDailyReports_spec_witness :
    List.Sorted reportOrder (getDailyReports w6db w6f) :=
  (getDailyReports_spec w6db w6f (by decide) (by decide) (by decide)).2.1

end EmployeeTracker
